import Mathlib

/-!
Verification of the persistence / price-change-detection core of the
MSDIA price-monitoring repository (Python sources under `src/database/`).

The Python code is shallowly embedded:
* scraper records and Mongo documents are association lists of dynamic
  values (`Val`, `Rec`) with Python `dict.get` / truthiness semantics;
* prices, discounts, ratings and timestamps are modelled as rationals
  (the Python code uses floats; every property settled here only needs
  exact arithmetic on the concrete values involved);
* `datetime.utcnow()` and `datetime.fromisoformat` are passed in as
  explicit parameters (`now`, `parse`) since they are environment calls;
* the Mongo / SQLite stores are lists of typed records with the fields the
  embedded operations read and write.
-/

namespace MSDIA

/-- A dynamic Python value as it appears in the scraped records and in the
documents built by the database managers.  `dt` is a `datetime` carried as a
rational UTC timestamp; record lists in this code base are lists of strings
(`categories`, `tags`). -/
inductive Val where
  | null
  | str (s : String)
  | num (q : ℚ)
  | bool (b : Bool)
  | strList (l : List String)
  | dt (t : ℚ)
deriving DecidableEq, Repr

/-- A Python dict with string keys, as an association list (first binding of a
key wins, matching dict semantics since the embedded code never rebinds a
key). -/
abbrev Rec := List (String × Val)

/-- Python `d.get(k)`: the bound value, or `None` (here `Val.null`) when the
key is absent.  Python's plain `get` conflates an absent key with a key bound to
`None` only through truthiness, which is how the embedded code consumes it. -/
def pyGet (r : Rec) (k : String) : Val :=
  match List.find? (fun p => p.1 = k) r with
  | some p => p.2
  | none => Val.null

/-- Python `d.get(k, default)`: the bound value (even if `None`) when the key
is present, else the default. -/
def pyGetD (r : Rec) (k : String) (d : Val) : Val :=
  match List.find? (fun p => p.1 = k) r with
  | some p => p.2
  | none => d

/-- Python truthiness for the value kinds occurring here. -/
def truthy : Val → Bool
  | Val.null => false
  | Val.str s => s ≠ ""
  | Val.num q => q ≠ 0
  | Val.bool b => b
  | Val.strList l => l ≠ []
  | Val.dt _ => true

/-- Python `a or b` on values (returns the first truthy operand, else `b`). -/
def pyOr (a b : Val) : Val :=
  if truthy a then a else b

/-- Python `json.dumps` on a list of strings, as used for the `categories`
field.
The exact rendering is irrelevant to every claim; only that the result is a
string. -/
def jsonDumps (l : List String) : String :=
  "[" ++ String.intercalate ", " (l.map (fun s => "\x22" ++ s ++ "\x22")) ++ "]"

/-! ## Record Normalizer (`enhanced_db_manager.py`) -/

/-- The five weight-1 fields of `_calculate_product_quality_score`. -/
def essential_fields : List String := ["name", "price", "category", "brand", "url"]

/-- The four weight-0.5 fields of `_calculate_product_quality_score`. -/
def bonus_fields : List String := ["image_url", "rating", "review_count", "discount"]

/-- Embeds `_calculate_product_quality_score` (enhanced_db_manager.py:311-330):
`score` accumulates 1 per truthy essential field and 0.5 per truthy bonus
field; `total_checks` is incremented on every field, truthy or not, so it
always ends at 9. -/
def calculate_product_quality_score (r : Rec) : ℚ :=
  let score : ℚ :=
    bonus_fields.foldl (fun s f => if truthy (pyGet r f) then s + (1/2) else s)
      (essential_fields.foldl (fun s f => if truthy (pyGet r f) then s + 1 else s) 0)
  let total_checks : ℚ := ((essential_fields.length : ℚ) + (bonus_fields.length : ℚ))
  if total_checks > 0 then min (score / total_checks) 1 else 0

/-- Embeds `_assess_price_data_quality` (enhanced_db_manager.py:332-343).
`if not price or price <= 0` is falsiness-or-nonpositive; the embedded code
is only ever applied to numeric or absent prices (a truthy non-numeric price
would raise `TypeError` at the `<=` in Python and is outside this model). -/
def assess_price_data_quality (r : Rec) : String :=
  let price := pyGet r "price"
  let poor : Bool :=
    match price with
    | Val.num q => q ≤ 0
    | v => !truthy v
  if poor then "poor"
  else if truthy (pyGet r "price_text") && truthy (pyGet r "category") then "excellent"
  else if truthy (pyGet r "price_text") || truthy (pyGet r "category") then "good"
  else "fair"

/-- Embeds `_prepare_enhanced_product_document` (enhanced_db_manager.py:244-278).
`now` stands for the two `datetime.utcnow()` calls. -/
def prepare_enhanced_product_document (now : ℚ) (r : Rec) (source : String) : Rec :=
  let categories :=
    match pyGet r "categories" with
    | Val.strList l => Val.str (jsonDumps l)
    | v => v
  [("product_id", pyGet r "product_id"),
   ("name", pyGet r "name"),
   ("display_name", pyOr (pyGet r "displayName") (pyGet r "name")),
   ("brand", pyGet r "brand"),
   ("url", pyGet r "url"),
   ("image_url", pyGet r "image_url"),
   ("image_alt", pyGet r "image_alt"),
   ("category", pyGet r "category"),
   ("categories", categories),
   ("category_key", pyGet r "category_key"),
   ("tags", pyGetD r "tags" (Val.strList [])),
   ("brand_key", pyGet r "brand_key"),
   ("seller_id", pyGet r "seller_id"),
   ("seller", pyGet r "seller"),
   ("is_official_store", pyGetD r "is_official_store" (Val.bool false)),
   ("official_store_name", pyGet r "official_store_name"),
   ("is_sponsored", pyGetD r "is_sponsored" (Val.bool false)),
   ("is_buyable", pyGetD r "is_buyable" (Val.bool true)),
   ("is_second_chance", pyGetD r "is_second_chance" (Val.bool false)),
   ("express_delivery", pyGetD r "express_delivery" (Val.bool false)),
   ("campaign_name", pyGet r "campaign_name"),
   ("campaign_identifier", pyGet r "campaign_identifier"),
   ("last_scraped_at", Val.dt now),
   ("last_updated_at", Val.dt now),
   ("source", Val.str source),
   ("is_active", Val.bool true),
   ("quality_score", Val.num (calculate_product_quality_score r))]

/-- Embeds `_prepare_enhanced_price_history` (enhanced_db_manager.py:280-309).
`parse` stands for `datetime.fromisoformat` on the `Z`-normalised string,
returning `none` exactly when that call would raise (the bare `except`
falls back to `utcnow()`, i.e. `now`); a non-string `scraped_at` also falls
back to `now`. -/
def prepare_enhanced_price_history (parse : String → Option ℚ) (now : ℚ) (r : Rec) : Rec :=
  let scraped_at : ℚ :=
    match pyGet r "scraped_at" with
    | Val.str s => (parse s).getD now
    | _ => now
  [("product_id", pyGet r "product_id"),
   ("scraped_at", Val.dt scraped_at),
   ("price", pyGet r "price"),
   ("price_text", pyGet r "price_text"),
   ("raw_price", pyGet r "raw_price"),
   ("old_price", pyGet r "old_price"),
   ("old_price_text", pyGet r "old_price_text"),
   ("discount", pyGet r "discount"),
   ("discount_text", pyGet r "discount_text"),
   ("price_euro", pyGet r "price_euro"),
   ("old_price_euro", pyGet r "old_price_euro"),
   ("discount_euro", pyGet r "discount_euro"),
   ("rating", pyGet r "rating"),
   ("review_count", pyGet r "review_count"),
   ("is_available", Val.bool true),
   ("scrape_session_id", pyGet r "scrape_session_id"),
   ("data_quality", Val.str (assess_price_data_quality r))]

/-! ## Price-Change Detector

Typed view of the `price_history` documents: the detectors and the read
paths only consume `product_id`, `scraped_at`, `price`, `discount`,
`data_quality` and the Mongo `_id` (here `sid`, a natural assigned at
insertion).  Prices in stored snapshots are numbers or `None` (they are
copied verbatim from the scrapers' numeric `price` field); a non-numeric
stored price would make the Python comparison raise and is outside the
model. -/

/-- One stored `price_history` document, restricted to the fields the
embedded operations read. -/
structure Snap where
  sid : ℕ
  product_id : String
  scraped_at : ℚ
  price : Option ℚ := none
  discount : Option ℚ := none
  data_quality : Option String := none
deriving DecidableEq, Repr

/-- One stored `price_changes` document.  The two managers populate different
subsets of these fields; absent fields are `none`. -/
structure Change where
  product_id : String
  change_type : String
  previous_price : Option ℚ := none
  current_price : Option ℚ := none
  price_difference : Option ℚ := none
  percentage_change : Option ℚ := none
  previous_discount : Option ℚ := none
  current_discount : Option ℚ := none
  changed_at : ℚ
  significance : Option String := none
  data_quality : Option String := none
  previous_scrape_id : Option ℕ := none
  current_scrape_id : Option ℕ := none
deriving DecidableEq, Repr

/-- Truthiness of a price value (`if new_price_record.get('price')`): present
and nonzero. -/
def priceTruthy : Option ℚ → Bool
  | none => false
  | some q => q ≠ 0

/-- Combines an earlier-stored matching snapshot `s` with the best later
candidate: the one with strictly greater `scraped_at` wins, ties keep the
earlier-stored one (Mongo's stable descending sort followed by taking the
first document). -/
def pickLater (s : Snap) : Option Snap → Option Snap
  | none => some s
  | some t => if t.scraped_at > s.scraped_at then some t else some s

/-- Embeds `price_history.find_one({"product_id": pid, "_id": {"$ne": excl}},
sort=[("scraped_at", -1)])`: the matching document with maximal `scraped_at`
(earliest stored among ties).  `excl = none` models a query without the
`_id` clause. -/
def find_previous (hist : List Snap) (pid : String) (excl : Option ℕ) : Option Snap :=
  match hist with
  | [] => none
  | s :: rest =>
    if s.product_id = pid ∧ ¬ excl = some s.sid then
      pickLater s (find_previous rest pid excl)
    else find_previous rest pid excl

/-- Embeds `_detect_enhanced_price_change` (enhanced_db_manager.py:670-723).
In the calling flow `pymongo`'s `insert_one` has already added `_id` to the
passed snapshot dict, so the `'_id' in new_price_record` guard holds and the
lookup always excludes the new snapshot's own id.  When the two prices
differ by less than `0.01` the function returns `None` without any discount
comparison. -/
def detect_enhanced_price_change (now : ℚ) (hist : List Snap) (pid : String)
    (newRec : Snap) : Option Change :=
  match find_previous hist pid (some newRec.sid) with
  | none =>
    if priceTruthy newRec.price then
      some { product_id := pid, change_type := "new_product",
             current_price := newRec.price, current_discount := newRec.discount,
             changed_at := now,
             data_quality := some (newRec.data_quality.getD "unknown") }
    else none
  | some prev =>
    match prev.price, newRec.price with
    | some op, some np =>
      if |op - np| < 1/100 then none
      else
        let price_diff := np - op
        let percentage_change := if op > 0 then ((np - op) / op) * 100 else 0
        some { product_id := pid,
               change_type := if price_diff < 0 then "decrease" else "increase",
               previous_price := some op, current_price := some np,
               price_difference := some price_diff,
               percentage_change := some percentage_change,
               previous_discount := prev.discount,
               current_discount := newRec.discount,
               changed_at := now,
               significance := some (if |percentage_change| > 20 then "high"
                 else if |percentage_change| > 5 then "medium" else "low"),
               data_quality := some (newRec.data_quality.getD "unknown") }
    | _, _ => none

/-- Embeds `_detect_price_change` (db_manager.py:327-397), the basic
manager's detector.  `previous_record.get('discount') or 0` equals
`Option.getD · 0` on numeric discounts, since a present `0` is falsy and the
`or` then also yields `0`.  Unlike the enhanced variant, equality of prices
is exact and a discount comparison is performed in that case. -/
def detect_price_change (now : ℚ) (hist : List Snap) (pid : String)
    (newRec : Snap) : Option Change :=
  match find_previous hist pid (some newRec.sid) with
  | none =>
    if priceTruthy newRec.price then
      some { product_id := pid, change_type := "new_product",
             current_price := newRec.price, current_discount := newRec.discount,
             changed_at := now, current_scrape_id := some newRec.sid }
    else none
  | some prev =>
    match prev.price, newRec.price with
    | some op, some np =>
      if op = np then
        let old_discount := prev.discount.getD 0
        let new_discount := newRec.discount.getD 0
        if ¬ old_discount = new_discount then
          some { product_id := pid,
                 change_type := if new_discount > old_discount then "discount_added"
                   else "discount_removed",
                 previous_price := some op, current_price := some np,
                 price_difference := some 0, percentage_change := some 0,
                 previous_discount := some old_discount,
                 current_discount := some new_discount,
                 changed_at := now,
                 previous_scrape_id := some prev.sid,
                 current_scrape_id := some newRec.sid }
        else none
      else
        let price_diff := np - op
        let percentage_change := if op > 0 then ((np - op) / op) * 100 else 0
        some { product_id := pid,
               change_type := if price_diff < 0 then "decrease" else "increase",
               previous_price := some op, current_price := some np,
               price_difference := some price_diff,
               percentage_change := some percentage_change,
               previous_discount := prev.discount,
               current_discount := newRec.discount,
               changed_at := now,
               previous_scrape_id := some prev.sid,
               current_scrape_id := some newRec.sid }
    | _, _ => none

/-! ## Persistence Gateway: `save_products_enhanced` (enhanced_db_manager.py)

The `products` collection is modelled by the identity, lifecycle and
statistics fields that the embedded operations read or that the claims
observe; the purely descriptive `$set` fields (name, brand, url, image,
seller, campaign, `quality_score`, ...) are covered by the record-normalizer
model above and are written but never read back by any embedded operation. -/

/-- One stored `products` document of the enhanced manager.  The `$setOnInsert`
fields (`first_seen_at`, `total_price_changes`, `avg_price`, `min_price`,
`max_price`) are set on every insert, so they are total here;
`price_history_count`, `last_price` and `price_volatility` only appear once
`_update_product_price_stats` has run, so they are optional. -/
structure EProduct where
  product_id : String
  source : String
  last_scraped_at : ℚ
  last_updated_at : ℚ
  is_active : Bool
  first_seen_at : ℚ
  total_price_changes : ℚ
  avg_price : ℚ
  min_price : ℚ
  max_price : ℚ
  price_history_count : Option ℕ := none
  last_price : Option ℚ := none
  price_volatility : Option ℚ := none
deriving DecidableEq, Repr

/-- A raw scraped record as consumed by the save flow, restricted to the
fields that flow reads: `product_id` (truthiness guard), `price` (snapshot,
`$setOnInsert` stats, change detection), `discount`, `price_text` and
`category` (data-quality tier), `scraped_at` (ISO text or absent). -/
structure RawItem where
  product_id : Option String := none
  price : Option ℚ := none
  discount : Option ℚ := none
  price_text : Option String := none
  category : Option String := none
  scraped_at : Option String := none
deriving DecidableEq, Repr

/-- Helper: a one-entry record when the value is present, else nothing. -/
def optEntry (k : String) : Option Val → Rec
  | some v => [(k, v)]
  | none => []

/-- View of a typed raw item as a Python dict, used to evaluate the
data-quality tier with the generic `assess_price_data_quality`. -/
def RawItem.toRec (r : RawItem) : Rec :=
  optEntry "product_id" (r.product_id.map Val.str)
  ++ optEntry "price" (r.price.map Val.num)
  ++ optEntry "discount" (r.discount.map Val.num)
  ++ optEntry "price_text" (r.price_text.map Val.str)
  ++ optEntry "category" (r.category.map Val.str)
  ++ optEntry "scraped_at" (r.scraped_at.map Val.str)

/-- The statistics dict built by `save_products_enhanced`
(enhanced_db_manager.py:178-184). -/
structure SaveStats where
  new_products : ℕ := 0
  updated_products : ℕ := 0
  new_price_records : ℕ := 0
  price_changes_detected : ℕ := 0
  errors : ℕ := 0
deriving DecidableEq, Repr

/-- The Mongo store of the enhanced manager: the three collections touched by
the save flow, plus the id counter standing for Mongo's `ObjectId`
generation for `price_history` inserts. -/
structure MongoDB where
  products : List EProduct := []
  price_history : List Snap := []
  price_changes : List Change := []
  next_id : ℕ := 0
deriving DecidableEq, Repr

/-- An empty enhanced store. -/
def emptyDB : MongoDB := {}

/-- Effect of the `$set` part of the upsert (enhanced_db_manager.py:198-211)
on an existing document: the tracked `$set` fields are overwritten, the
`$setOnInsert` and statistics fields are untouched. -/
def apply_product_set (now : ℚ) (source : String) (p : EProduct) : EProduct :=
  { p with
    source := source, last_scraped_at := now, last_updated_at := now,
    is_active := true }

/-- The document created when the upsert inserts: union of the `$set` fields
and the `$setOnInsert` fields, where `price0` is
`product_data.get('price', 0)`. -/
def new_product_doc (now : ℚ) (source : String) (pid : String) (price0 : ℚ) : EProduct :=
  { product_id := pid
    source := source
    last_scraped_at := now
    last_updated_at := now
    is_active := true
    first_seen_at := now
    total_price_changes := 0
    avg_price := price0
    min_price := price0
    max_price := price0 }

/-- Embeds `products.update_one({"product_id": pid}, {"$set": ...,
"$setOnInsert": ...}, upsert=True)`: the first document matching
`product_id` (the collection's unique index on `product_id` alone allows at
most one) is updated, else a new document is inserted.  The returned flag is
`result.upserted_id` being set. -/
def upsert_product (now : ℚ) (source : String) (pid : String) (price0 : ℚ) :
    List EProduct → List EProduct × Bool
  | [] => ([new_product_doc now source pid price0], true)
  | p :: rest =>
    if p.product_id = pid then (apply_product_set now source p :: rest, false)
    else
      let r := upsert_product now source pid price0 rest
      (p :: r.1, r.2)

/-- Effect of `_update_product_price_stats` on the matched product document
(enhanced_db_manager.py:355-376).  In this store every product document was
created by the upsert, so `min_price`, `max_price` and `avg_price` are
present and the `product.get(..., new_price)` defaults never fire;
`price_history_count` defaults to `0` via `product.get(..., 0)`. -/
def apply_price_stats (p : ℚ) (prod : EProduct) : EProduct :=
  let price_count : ℕ := prod.price_history_count.getD 0 + 1
  let new_avg : ℚ := ((prod.avg_price * ((price_count : ℚ) - 1)) + p) / (price_count : ℚ)
  { prod with
    min_price := min prod.min_price p,
    max_price := max prod.max_price p,
    avg_price := new_avg,
    price_history_count := some price_count,
    last_price := some p,
    price_volatility := some (if prod.avg_price > 0
      then |p - prod.avg_price| / prod.avg_price else 0) }

/-- Embeds `_update_product_price_stats` (enhanced_db_manager.py:345-376):
skips entirely when the new price is absent, zero (falsy) or negative, or
when no product document matches; otherwise rewrites the statistics fields
of the first matching document. -/
def update_product_price_stats (pid : String) (new_price : Option ℚ) :
    List EProduct → List EProduct
  | [] => []
  | prod :: rest =>
    match new_price with
    | none => prod :: rest
    | some p =>
      if p ≤ 0 then prod :: rest
      else if prod.product_id = pid then apply_price_stats p prod :: rest
      else prod :: update_product_price_stats pid new_price rest

/-- Embeds one iteration of the `for product_data in products` loop of
`save_products_enhanced` (enhanced_db_manager.py:187-234): the missing-id
guard, the upsert, the `price_history` insert (with the snapshot contents of
`_prepare_enhanced_price_history` restricted to the tracked fields), the
change detection, and the conditional statistics update.  This model is
total, so the only per-record error source is the `if not product_id` guard;
the Python `except` arm for store errors is not exercised by any claim. -/
def process_product (parse : String → Option ℚ) (now : ℚ) (source : String)
    (st : SaveStats × MongoDB) (r : RawItem) : SaveStats × MongoDB :=
  let stats := st.1
  let db := st.2
  if ¬ truthy (pyGet r.toRec "product_id") then
    ({ stats with errors := stats.errors + 1 }, db)
  else
    let pid := (r.product_id.getD "")
    let up := upsert_product now source pid (r.price.getD 0) db.products
    let stats1 :=
      if up.2 then { stats with new_products := stats.new_products + 1 }
      else { stats with updated_products := stats.updated_products + 1 }
    let snap : Snap :=
      { sid := db.next_id, product_id := pid,
        scraped_at := (r.scraped_at.bind parse).getD now,
        price := r.price, discount := r.discount,
        data_quality := some (assess_price_data_quality r.toRec) }
    let hist1 := db.price_history ++ [snap]
    let stats2 := { stats1 with new_price_records := stats1.new_price_records + 1 }
    match detect_enhanced_price_change now hist1 pid snap with
    | some ch =>
      ({ stats2 with price_changes_detected := stats2.price_changes_detected + 1 },
       { products := update_product_price_stats pid snap.price up.1,
         price_history := hist1,
         price_changes := db.price_changes ++ [ch],
         next_id := db.next_id + 1 })
    | none =>
      (stats2,
       { products := up.1, price_history := hist1,
         price_changes := db.price_changes, next_id := db.next_id + 1 })

/-- Embeds `save_products_enhanced` (enhanced_db_manager.py:176-242): fold of
`process_product` over the batch starting from zeroed statistics, returning
the statistics object and the resulting store. -/
def save_products_enhanced (parse : String → Option ℚ) (now : ℚ) (source : String)
    (db : MongoDB) (products : List RawItem) : SaveStats × MongoDB :=
  products.foldl (process_product parse now source) ({}, db)

/-! ## Read paths of the basic manager (db_manager.py) -/

/-- Filter predicate of `get_price_changes` (db_manager.py:475-497).  Each
filter argument is applied only when truthy (`if change_type:`, `if since:`,
`if min_percentage:`), so an empty string or a zero minimum disables the
corresponding clause; datetimes are always truthy.  The percentage clause is
Mongo `{"percentage_change": {"$gte": abs(min_percentage)}}`: it compares
the *signed* stored value against `abs(m)`, and documents lacking the field
(such as `new_product` changes) never match `$gte`. -/
def change_matches (change_type : Option String) (since : Option ℚ)
    (min_percentage : Option ℚ) (c : Change) : Bool :=
  (match change_type with
   | some t => if t = "" then true else c.change_type = t
   | none => true)
  && (match since with
   | some s => decide (s ≤ c.changed_at)
   | none => true)
  && (match min_percentage with
   | some m =>
     if m = 0 then true
     else
       match c.percentage_change with
       | some q => decide (|m| ≤ q)
       | none => false
   | none => true)

/-- Insertion step of a descending sort on `changed_at` (the `.sort
("changed_at", -1)` of the cursor). -/
def insert_changed_at_desc (c : Change) : List Change → List Change
  | [] => [c]
  | d :: rest =>
    if d.changed_at ≥ c.changed_at then d :: insert_changed_at_desc c rest
    else c :: d :: rest

/-- Sort a list of change documents by `changed_at` descending. -/
def sort_changed_at_desc (l : List Change) : List Change :=
  l.foldr insert_changed_at_desc []

/-- Embeds `get_price_changes` (db_manager.py:475-497): the stored change
documents matching the (truthy) filters, ordered by `changed_at`
descending. -/
def get_price_changes (store : List Change) (change_type : Option String)
    (since : Option ℚ) (min_percentage : Option ℚ) : List Change :=
  sort_changed_at_desc (store.filter (change_matches change_type since min_percentage))

/-- One stored `products` document of the basic manager, restricted to the
fields `get_current_prices` reads: the identity and the three filterable
attributes (`_prepare_product_document` always writes `source`, defaulting
to `"jumia.ma"`, so it is total). -/
structure BProduct where
  product_id : String
  name : Option String := none
  category : Option String := none
  brand : Option String := none
  source : String := "jumia.ma"
deriving DecidableEq, Repr

/-- One result row of `get_current_prices`: the product's fields merged with
the price fields of its latest snapshot (`price`, `discount`,
`last_price_update`; the remaining copied snapshot fields behave
identically). -/
structure PriceRow where
  product_id : String
  name : Option String
  category : Option String
  brand : Option String
  source : String
  price : Option ℚ
  discount : Option ℚ
  last_price_update : ℚ
deriving DecidableEq, Repr

/-- Embeds the aggregation pipeline of `get_current_prices`
(db_manager.py:419-434) for one product id: sort all of `price_history` by
`scraped_at` descending (stable) and keep the first document per
`product_id`, i.e. the earliest stored snapshot among those of maximal
`scraped_at`. -/
def latest_snapshot (hist : List Snap) (pid : String) : Option Snap :=
  match hist with
  | [] => none
  | s :: rest =>
    if s.product_id = pid then pickLater s (latest_snapshot rest pid)
    else latest_snapshot rest pid

/-- The `{**product, 'price': ..., ...}` merge of db_manager.py:450-462. -/
def mk_price_row (p : BProduct) (s : Snap) : PriceRow :=
  { product_id := p.product_id, name := p.name, category := p.category,
    brand := p.brand, source := p.source, price := s.price,
    discount := s.discount, last_price_update := s.scraped_at }

/-- Product filter of `get_current_prices` (db_manager.py:437-443): each
clause only when the argument is truthy. -/
def product_matches (category brand source : Option String) (p : BProduct) : Bool :=
  (match category with
   | some c => if c = "" then true else p.category = some c
   | none => true)
  && (match brand with
   | some b => if b = "" then true else p.brand = some b
   | none => true)
  && (match source with
   | some s => if s = "" then true else p.source = s
   | none => true)

/-- Embeds `get_current_prices` (db_manager.py:416-473): for every product
document matching the filters that has at least one snapshot, one row
merging the product with its latest snapshot; products without snapshots
contribute nothing, and snapshots whose `product_id` has no product document
contribute nothing. -/
def get_current_prices (products : List BProduct) (hist : List Snap)
    (category brand source : Option String) : List PriceRow :=
  (products.filter (product_matches category brand source)).filterMap
    (fun p => (latest_snapshot hist p.product_id).map (mk_price_row p))

/-! ## SQLite manager (sqlite_manager.py)

The `sqlite3` connection is modelled with explicit transaction state: every
`cursor.execute` mutates only the pending (uncommitted) state,
`conn.commit()` publishes it and `conn.rollback()` discards it.  A failure
oracle `fail : ℕ → Bool` says which of the four statement sites of
`save_product` (SELECT, UPDATE/INSERT, history INSERT, COMMIT, in source
order) raises `sqlite3.Error`; this covers constraint violations (the
`NOT NULL` and `UNIQUE` clauses of the schema) and transient store errors
alike. -/

/-- One row of the SQLite `products` table (schema at
sqlite_manager.py:57-79). -/
structure SRow where
  id : String
  source : String
  name : Option String := none
  price : Option ℚ := none
  price_text : Option String := none
  old_price : Option ℚ := none
  old_price_text : Option String := none
  discount : Option ℚ := none
  discount_text : Option String := none
  url : Option String := none
  image_url : Option String := none
  image_alt : Option String := none
  category : Option String := none
  brand : Option String := none
  rating : Option ℚ := none
  review_count : Option ℚ := none
  created_at : ℚ
  updated_at : ℚ
deriving DecidableEq, Repr

/-- One row of the SQLite `price_history` table (schema at
sqlite_manager.py:82-94); `hid` is the AUTOINCREMENT key. -/
structure HRow where
  hid : ℕ
  product_id : String
  source : String
  price : Option ℚ := none
  price_text : Option String := none
  scraped_at : ℚ
deriving DecidableEq, Repr

/-- The two tables `save_product` touches, plus the AUTOINCREMENT counter. -/
structure SqliteState where
  products : List SRow := []
  price_history : List HRow := []
  next_hist_id : ℕ := 0
deriving DecidableEq, Repr

/-- A `sqlite3` connection: committed state plus the pending state of the
open implicit transaction. -/
structure Conn where
  committed : SqliteState
  pending : SqliteState
deriving DecidableEq, Repr

/-- Python `conn.commit()`. -/
def Conn.commit (c : Conn) : Conn :=
  { committed := c.pending, pending := c.pending }

/-- Python `conn.rollback()`. -/
def Conn.rollback (c : Conn) : Conn :=
  { committed := c.committed, pending := c.committed }

/-- The input dict of `save_product`: the code subscripts
`product_data['product_id']` and `['source']`, so those two are required;
every other field is read with `.get`. -/
structure SqliteProductData where
  product_id : String
  source : String
  name : Option String := none
  price : Option ℚ := none
  price_text : Option String := none
  old_price : Option ℚ := none
  old_price_text : Option String := none
  discount : Option ℚ := none
  discount_text : Option String := none
  url : Option String := none
  image_url : Option String := none
  image_alt : Option String := none
  category : Option String := none
  brand : Option String := none
  rating : Option ℚ := none
  review_count : Option ℚ := none
deriving DecidableEq, Repr

/-- Effect of the UPDATE statement (sqlite_manager.py:150-174) on a matching
row: all scraped columns and `updated_at` are overwritten, `created_at`
kept. -/
def sqlite_update_row (now : ℚ) (d : SqliteProductData) (row : SRow) : SRow :=
  { row with
    name := d.name, price := d.price, price_text := d.price_text,
    old_price := d.old_price, old_price_text := d.old_price_text,
    discount := d.discount, discount_text := d.discount_text,
    url := d.url, image_url := d.image_url, image_alt := d.image_alt,
    category := d.category, brand := d.brand, rating := d.rating,
    review_count := d.review_count, updated_at := now }

/-- UPDATE ... WHERE id = ? AND source = ? over the whole table (the
`UNIQUE(id, source)` constraint keeps at most one match). -/
def sqlite_update_products (now : ℚ) (d : SqliteProductData)
    (rows : List SRow) : List SRow :=
  rows.map (fun row =>
    if row.id = d.product_id ∧ row.source = d.source
    then sqlite_update_row now d row else row)

/-- The row created by the INSERT statement (sqlite_manager.py:177-202). -/
def sqlite_insert_row (now : ℚ) (d : SqliteProductData) : SRow :=
  { id := d.product_id, source := d.source, name := d.name, price := d.price,
    price_text := d.price_text, old_price := d.old_price,
    old_price_text := d.old_price_text, discount := d.discount,
    discount_text := d.discount_text, url := d.url, image_url := d.image_url,
    image_alt := d.image_alt, category := d.category, brand := d.brand,
    rating := d.rating, review_count := d.review_count, created_at := now,
    updated_at := now }

/-- The `price_history` row created at sqlite_manager.py:205-214 (the code
passes `current_time` as `scraped_at`). -/
def sqlite_history_row (now : ℚ) (d : SqliteProductData) (hid : ℕ) : HRow :=
  { hid := hid, product_id := d.product_id, source := d.source,
    price := d.price, price_text := d.price_text, scraped_at := now }

/-- Embeds `save_product` (sqlite_manager.py:125-223).  Statement sites in
source order: `0` the existence SELECT, `1` the UPDATE/INSERT, `2` the
history INSERT, `3` the COMMIT.  A raising site lands in the
`except sqlite3.Error` arm, which rolls the connection back and returns
`False`; otherwise the COMMIT publishes both writes together and the
function returns `True`. -/
def sqlite_save_product (fail : ℕ → Bool) (now : ℚ) (c : Conn)
    (d : SqliteProductData) : Bool × Conn :=
  if fail 0 then (false, c.rollback)
  else
    let exists_ := c.pending.products.any
      (fun row => row.id = d.product_id && row.source = d.source)
    if fail 1 then (false, c.rollback)
    else
      let pending1 :=
        if exists_ then
          { c.pending with products := sqlite_update_products now d c.pending.products }
        else
          { c.pending with products := c.pending.products ++ [sqlite_insert_row now d] }
      if fail 2 then (false, Conn.rollback { c with pending := pending1 })
      else
        let pending2 :=
          { pending1 with
            price_history := pending1.price_history
              ++ [sqlite_history_row now d pending1.next_hist_id],
            next_hist_id := pending1.next_hist_id + 1 }
        if fail 3 then (false, Conn.rollback { c with pending := pending2 })
        else (true, Conn.commit { c with pending := pending2 })

/-! ## Concrete instances used by counterexamples and witnesses -/

/-- Spec-side reformulation of the quality score's numerator: the sum of the
weights of the truthy fields (1 per essential field, 0.5 per bonus field). -/
def field_weight_sum (r : Rec) : ℚ :=
  ((essential_fields.filter (fun f => truthy (pyGet r f))).length : ℚ)
  + (1/2) * ((bonus_fields.filter (fun f => truthy (pyGet r f))).length : ℚ)

/-- A raw record with all nine quality-score fields present and truthy. -/
def qualityFullRec : Rec :=
  [("name", Val.str "Laptop"), ("price", Val.num 100),
   ("category", Val.str "Electronics"), ("brand", Val.str "Acme"),
   ("url", Val.str "https://x"), ("image_url", Val.str "https://x/img"),
   ("rating", Val.num 4), ("review_count", Val.num 10),
   ("discount", Val.num 5)]

/-- A minimal raw record (id and price only), used to exhibit normalizer
drift. -/
def c8raw : Rec := [("product_id", Val.str "p1"), ("price", Val.num 100)]

/-- A raw record whose snapshot gets data-quality tier `excellent`. -/
def c8rawSnap : Rec :=
  [("product_id", Val.str "p1"), ("price", Val.num 100),
   ("price_text", Val.str "100 Dhs"), ("category", Val.str "Electronics")]

/-- A timestamp parser standing in for `datetime.fromisoformat` in closed
instances; its value is irrelevant to every property instantiated with it. -/
def parseNone : String → Option ℚ := fun _ => none

/-- Stored snapshot: price 100, discount 0. -/
def snapPrev100 : Snap :=
  { sid := 0, product_id := "p1", scraped_at := 0, price := some 100,
    discount := some 0 }

/-- New snapshot: price 100, discount 10. -/
def snapNew100 : Snap :=
  { sid := 1, product_id := "p1", scraped_at := 1, price := some 100,
    discount := some 10 }

/-- A snapshot whose price is present but exactly 0. -/
def snapZeroPrice : Snap :=
  { sid := 0, product_id := "p1", scraped_at := 0, price := some 0,
    discount := none }

/-- A stored price change: a 30 percent decrease. -/
def changeDrop30 : Change :=
  { product_id := "p1", change_type := "decrease", previous_price := some 100,
    current_price := some 70, price_difference := some (-30),
    percentage_change := some (-30), changed_at := 0 }

/-- A stored price change: a 30 percent increase. -/
def changeUp30 : Change :=
  { product_id := "p2", change_type := "increase", previous_price := some 100,
    current_price := some 130, price_difference := some 30,
    percentage_change := some 30, changed_at := 1 }

/-- A basic-manager product document for `get_current_prices` instances. -/
def bProduct1 : BProduct := { product_id := "p1" }

/-- Two snapshots of the same product with distinct `scraped_at`. -/
def snapOld : Snap :=
  { sid := 0, product_id := "p1", scraped_at := 5, price := some 10 }

/-- Later snapshot of the same product. -/
def snapNewer : Snap :=
  { sid := 1, product_id := "p1", scraped_at := 9, price := some 20 }

/-- A raw item with a valid product id and a positive price. -/
def rawP1 : RawItem := { product_id := some "p1", price := some 100 }

/-- A raw item with a second product id. -/
def rawP2 : RawItem := { product_id := some "p2", price := some 50 }

/-- A raw item without a product id. -/
def rawNoId : RawItem := { price := some 10 }

/-- A SQLite product record with the NOT NULL columns populated. -/
def sqliteSample : SqliteProductData :=
  { product_id := "test123", source := "example.ma", name := some "Test",
    price := some 999, url := some "https://example.com/p" }

/-- An idle SQLite connection over empty tables. -/
def connEmpty : Conn := { committed := {}, pending := {} }

/-! ## Theorems -/

/-- Folding the weight accumulation of `_calculate_product_quality_score`
over any field list counts the truthy fields. -/
theorem foldl_weight (r : Rec) (w : ℚ) (l : List String) :
    ∀ init : ℚ,
      l.foldl (fun s f => if truthy (pyGet r f) then s + w else s) init
      = init + w * ((l.filter (fun f => truthy (pyGet r f))).length : ℚ) := by
  induction l with
  | nil => intro init; simp
  | cons a t ih =>
    intro init
    by_cases h : truthy (pyGet r a)
    · rw [List.foldl_cons, List.filter_cons, if_pos h, if_pos h, ih,
        List.length_cons]
      push_cast
      ring
    · rw [List.foldl_cons, List.filter_cons, if_neg h, if_neg h, ih]

/-- C4: the quality score is the truthy-field weight sum divided by 9 (the
number of checked fields, not the maximal weight 7), clamped to `[0, 1]`. -/
theorem C4_amended (r : Rec) :
    calculate_product_quality_score r = min (field_weight_sum r / 9) 1
    ∧ 0 ≤ calculate_product_quality_score r
    ∧ calculate_product_quality_score r ≤ 1 := by
  have hmain : calculate_product_quality_score r = min (field_weight_sum r / 9) 1 := by
    unfold calculate_product_quality_score field_weight_sum
    rw [foldl_weight r 1, foldl_weight r (1/2)]
    norm_num [essential_fields, bonus_fields]
  refine ⟨hmain, ?_, ?_⟩
  · rw [hmain]
    have h0 : (0 : ℚ) ≤ field_weight_sum r / 9 := by
      unfold field_weight_sum
      positivity
    exact le_min h0 zero_le_one
  · rw [hmain]
    exact min_le_right _ _

/-- C4: on a record with all nine fields present the quality score is 7/9,
not 1, refuting division by the total possible weight 7. -/
theorem C4_counterexample :
    calculate_product_quality_score qualityFullRec = 7/9 ∧ ((7 : ℚ)/9) ≠ 1 := by
  constructor
  · simp +decide only [calculate_product_quality_score, essential_fields,
      bonus_fields, qualityFullRec, pyGet, truthy, List.find?, List.foldl]
    norm_num
  · norm_num

/-- C1: when the previous and new prices of consecutive snapshots are both
present, the basic detector performs the discount comparison only on *exact*
price equality — emitting `discount_added`/`discount_removed` (by the sign
of the defaulted discount difference) with `price_difference = 0` — while
the enhanced detector emits nothing at all whenever the prices differ by
less than 0.01, never a discount change. -/
theorem C1_amended (now : ℚ) (hist : List Snap) (pid : String)
    (newRec prev : Snap) (op np : ℚ)
    (hfind : find_previous hist pid (some newRec.sid) = some prev)
    (hop : prev.price = some op) (hnp : newRec.price = some np) :
    (op = np →
      detect_price_change now hist pid newRec =
        (if prev.discount.getD 0 = newRec.discount.getD 0 then none
         else some { product_id := pid
                     change_type :=
                       if newRec.discount.getD 0 > prev.discount.getD 0
                       then "discount_added" else "discount_removed"
                     previous_price := some op
                     current_price := some np
                     price_difference := some 0
                     percentage_change := some 0
                     previous_discount := some (prev.discount.getD 0)
                     current_discount := some (newRec.discount.getD 0)
                     changed_at := now
                     previous_scrape_id := some prev.sid
                     current_scrape_id := some newRec.sid }))
    ∧ (|op - np| < 1/100 →
        detect_enhanced_price_change now hist pid newRec = none) := by
  constructor
  · intro heq
    simp only [detect_price_change, hfind, hop, hnp]
    rw [if_pos heq]
    by_cases hd : prev.discount.getD 0 = newRec.discount.getD 0
    · simp [hd]
    · simp [hd]
  · intro hlt
    simp only [detect_enhanced_price_change, hfind, hop, hnp]
    rw [if_pos hlt]

/-- C1: the enhanced detector, on two consecutive snapshots with equal
prices (100 and 100, well within the 0.01 epsilon) and discounts 0 and 10,
emits no change at all — refuting the claim that a `discount_added` change
with `price_difference = 0` is emitted. -/
theorem C1_counterexample :
    detect_enhanced_price_change 2 [snapPrev100, snapNew100] "p1" snapNew100 = none
    ∧ snapPrev100.price = some 100 ∧ snapNew100.price = some 100
    ∧ |(100 : ℚ) - 100| < 1/100
    ∧ snapPrev100.discount.getD 0 ≠ snapNew100.discount.getD 0 := by
  refine ⟨?_, rfl, rfl, by norm_num, by norm_num [snapPrev100, snapNew100]⟩
  simp only [detect_enhanced_price_change, find_previous, pickLater,
    snapPrev100, snapNew100]
  norm_num

/-- Witness for C1 at the concrete pair (100, 100, discount 0 to 10): the
basic detector emits `discount_added` with zero price difference. -/
theorem C1_witness :
    detect_price_change 2 [snapPrev100, snapNew100] "p1" snapNew100 =
      some { product_id := "p1", change_type := "discount_added",
             previous_price := some 100, current_price := some 100,
             price_difference := some 0, percentage_change := some 0,
             previous_discount := some 0, current_discount := some 10,
             changed_at := 2, previous_scrape_id := some 0,
             current_scrape_id := some 1 } := by
  rw [(C1_amended 2 [snapPrev100, snapNew100] "p1" snapNew100 snapPrev100 100 100
    (by decide) (by decide) (by decide)).1 (by norm_num)]
  norm_num [snapPrev100, snapNew100]

/-- C10: with no prior snapshot, both detectors emit a `new_product` change
exactly when the new price is truthy; a present price of exactly 0 yields no
change, just like a missing price. -/
theorem C10_new_product_requires_truthy_price (now : ℚ) (hist : List Snap)
    (pid : String) (newRec : Snap)
    (h : find_previous hist pid (some newRec.sid) = none) :
    (detect_enhanced_price_change now hist pid newRec
      = if priceTruthy newRec.price then
          some { product_id := pid, change_type := "new_product",
                 current_price := newRec.price,
                 current_discount := newRec.discount, changed_at := now,
                 data_quality := some (newRec.data_quality.getD "unknown") }
        else none)
    ∧ (detect_price_change now hist pid newRec
      = if priceTruthy newRec.price then
          some { product_id := pid, change_type := "new_product",
                 current_price := newRec.price,
                 current_discount := newRec.discount, changed_at := now,
                 current_scrape_id := some newRec.sid }
        else none)
    ∧ (newRec.price = some 0 →
        detect_enhanced_price_change now hist pid newRec = none
        ∧ detect_price_change now hist pid newRec = none) := by
  have h1 : detect_enhanced_price_change now hist pid newRec
      = if priceTruthy newRec.price then
          some { product_id := pid, change_type := "new_product",
                 current_price := newRec.price,
                 current_discount := newRec.discount, changed_at := now,
                 data_quality := some (newRec.data_quality.getD "unknown") }
        else none := by
    simp only [detect_enhanced_price_change, h]
  have h2 : detect_price_change now hist pid newRec
      = if priceTruthy newRec.price then
          some { product_id := pid, change_type := "new_product",
                 current_price := newRec.price,
                 current_discount := newRec.discount, changed_at := now,
                 current_scrape_id := some newRec.sid }
        else none := by
    simp only [detect_price_change, h]
  refine ⟨h1, h2, fun hp => ?_⟩
  have hpt : priceTruthy newRec.price = false := by
    rw [hp]; simp [priceTruthy]
  constructor
  · rw [h1, hpt]; simp
  · rw [h2, hpt]; simp

/-- Witness for C10: a first snapshot whose price is present but zero
produces no change from either detector. -/
theorem C10_witness :
    detect_enhanced_price_change 0 [] "p1" snapZeroPrice = none
    ∧ detect_price_change 0 [] "p1" snapZeroPrice = none :=
  (C10_new_product_requires_truthy_price 0 [] "p1" snapZeroPrice rfl).2.2 rfl

/-- Membership is invariant under the descending insertion step. -/
theorem mem_insert_changed_at_desc (c d : Change) (l : List Change) :
    c ∈ insert_changed_at_desc d l ↔ c = d ∨ c ∈ l := by
  induction l with
  | nil => simp [insert_changed_at_desc]
  | cons e t ih =>
    unfold insert_changed_at_desc
    by_cases h : e.changed_at ≥ d.changed_at
    · rw [if_pos h]
      simp only [List.mem_cons, ih]
      tauto
    · rw [if_neg h]
      simp [List.mem_cons]

/-- Membership is invariant under the descending sort on `changed_at`. -/
theorem mem_sort_changed_at_desc (c : Change) (l : List Change) :
    c ∈ sort_changed_at_desc l ↔ c ∈ l := by
  unfold sort_changed_at_desc
  induction l with
  | nil => simp
  | cons e t ih =>
    simp only [List.foldr_cons, mem_insert_changed_at_desc, List.mem_cons]
    rw [ih]

/-- C5: with a positive minimum `m`, `get_price_changes` returns exactly the
stored changes whose *signed* `percentage_change` is at least `m` — not
those whose absolute value is at least `m`; changes lacking the field are
never returned. -/
theorem C5_amended (store : List Change) (m : ℚ) (hm : 0 < m) (c : Change) :
    c ∈ get_price_changes store none none (some m)
    ↔ c ∈ store ∧ ∃ q, c.percentage_change = some q ∧ m ≤ q := by
  unfold get_price_changes
  rw [mem_sort_changed_at_desc, List.mem_filter]
  have hmatch : change_matches none none (some m) c
      = (if m = 0 then true
         else match c.percentage_change with
           | some q => decide (|m| ≤ q)
           | none => false) := by
    show ((true && true)
        && (if m = 0 then true
            else match c.percentage_change with
              | some q => decide (|m| ≤ q)
              | none => false)) = _
    rw [Bool.true_and, Bool.true_and]
  rw [hmatch, if_neg (ne_of_gt hm), abs_of_pos hm]
  cases hq : c.percentage_change with
  | none => simp [hq]
  | some q => simp [hq]

/-- C5: a stored decrease with `percentage_change = -30` is not returned for
minimum 20, although its absolute percentage change exceeds 20. -/
theorem C5_counterexample :
    get_price_changes [changeDrop30] none none (some 20) = []
    ∧ changeDrop30.percentage_change = some (-30)
    ∧ (20 : ℚ) ≤ |(-30 : ℚ)| := by
  refine ⟨?_, rfl, by norm_num⟩
  simp only [get_price_changes, change_matches, changeDrop30, List.filter,
    sort_changed_at_desc, List.foldr]

/-- Witness for C5: an increase of +30 percent is returned for minimum 20,
per the amended filter characterisation. -/
theorem C5_witness :
    (0 : ℚ) < 20
    ∧ (changeUp30 ∈ get_price_changes [changeUp30] none none (some 20)
       ↔ changeUp30 ∈ [changeUp30]
         ∧ ∃ q, changeUp30.percentage_change = some q ∧ (20 : ℚ) ≤ q) :=
  ⟨by norm_num, C5_amended [changeUp30] 20 (by norm_num) changeUp30⟩

/-- Choosing among candidates never comes back empty. -/
theorem pickLater_ne_none (s : Snap) (r : Option Snap) : pickLater s r ≠ none := by
  cases r with
  | none => simp [pickLater]
  | some t =>
    simp only [pickLater]
    by_cases hc : t.scraped_at > s.scraped_at <;> simp [hc]

/-- A product id with no matching snapshot has no latest snapshot. -/
theorem latest_snapshot_eq_none (hist : List Snap) (pid : String) :
    latest_snapshot hist pid = none ↔ ∀ t ∈ hist, ¬ t.product_id = pid := by
  induction hist with
  | nil => simp [latest_snapshot]
  | cons a rest ih =>
    unfold latest_snapshot
    by_cases ha : a.product_id = pid
    · rw [if_pos ha]
      constructor
      · intro h
        exact absurd h (pickLater_ne_none a _)
      · intro h
        exact absurd ha (h a (by simp))
    · rw [if_neg ha, ih]
      constructor
      · intro h t ht
        rcases List.mem_cons.mp ht with rfl | ht'
        · exact ha
        · exact h t ht'
      · intro h t ht
        exact h t (List.mem_cons_of_mem a ht)

/-- The latest snapshot belongs to the history, carries the requested
product id, and has maximal `scraped_at` among that product's snapshots. -/
theorem latest_snapshot_spec (hist : List Snap) (pid : String) :
    ∀ s : Snap, latest_snapshot hist pid = some s →
      s ∈ hist ∧ s.product_id = pid
      ∧ ∀ t ∈ hist, t.product_id = pid → t.scraped_at ≤ s.scraped_at := by
  induction hist with
  | nil => intro s h; simp [latest_snapshot] at h
  | cons a rest ih =>
    intro s h
    unfold latest_snapshot at h
    by_cases ha : a.product_id = pid
    · rw [if_pos ha] at h
      cases hr : latest_snapshot rest pid with
      | none =>
        rw [hr] at h
        simp only [pickLater] at h
        have hs : a = s := by simpa using h
        subst hs
        refine ⟨by simp, ha, ?_⟩
        intro t ht htp
        rcases List.mem_cons.mp ht with rfl | ht'
        · exact le_refl _
        · exact absurd htp ((latest_snapshot_eq_none rest pid).mp hr t ht')
      | some t0 =>
        rw [hr] at h
        simp only [pickLater] at h
        obtain ⟨ht0m, ht0p, ht0max⟩ := ih t0 hr
        by_cases hc : t0.scraped_at > a.scraped_at
        · rw [if_pos hc] at h
          have hs : t0 = s := by simpa using h
          subst hs
          refine ⟨List.mem_cons_of_mem a ht0m, ht0p, ?_⟩
          intro t ht htp
          rcases List.mem_cons.mp ht with rfl | ht'
          · exact le_of_lt hc
          · exact ht0max t ht' htp
        · rw [if_neg hc] at h
          have hs : a = s := by simpa using h
          subst hs
          refine ⟨by simp, ha, ?_⟩
          intro t ht htp
          rcases List.mem_cons.mp ht with rfl | ht'
          · exact le_refl _
          · exact le_trans (ht0max t ht' htp) (le_of_not_gt hc)
    · rw [if_neg ha] at h
      obtain ⟨hm, hp, hmax⟩ := ih s h
      refine ⟨List.mem_cons_of_mem a hm, hp, ?_⟩
      intro t ht htp
      rcases List.mem_cons.mp ht with rfl | ht'
      · exact absurd htp ha
      · exact hmax t ht' htp

/-- A product id with a snapshot has some latest snapshot. -/
theorem latest_snapshot_isSome (hist : List Snap) (pid : String)
    (h : ∃ t ∈ hist, t.product_id = pid) :
    ∃ s, latest_snapshot hist pid = some s := by
  cases hl : latest_snapshot hist pid with
  | none =>
    obtain ⟨t, ht, htp⟩ := h
    exact absurd htp ((latest_snapshot_eq_none hist pid).mp hl t ht)
  | some s => exact ⟨s, rfl⟩

/-- With no filters, every product passes the query of
`get_current_prices`. -/
theorem product_matches_none (p : BProduct) :
    product_matches none none none p = true := rfl

/-- Rows for products whose id differs from `pid` never carry `pid`. -/
theorem rows_no_pid (hist : List Snap) (pid : String) :
    ∀ products : List BProduct, (∀ p ∈ products, ¬ p.product_id = pid) →
      (products.filterMap
        (fun p => (latest_snapshot hist p.product_id).map (mk_price_row p))).filter
        (fun row => row.product_id = pid) = [] := by
  intro products
  induction products with
  | nil => intro _; rfl
  | cons p ps ih =>
    intro h
    rw [List.filterMap_cons]
    cases hl : latest_snapshot hist p.product_id with
    | none =>
      simp only [Option.map_none']
      exact ih (fun q hq => h q (List.mem_cons_of_mem p hq))
    | some t =>
      simp only [Option.map_some']
      rw [List.filter_cons]
      have : ¬ (mk_price_row p t).product_id = pid := h p (by simp)
      rw [if_neg (by simpa using this)]
      exact ih (fun q hq => h q (List.mem_cons_of_mem p hq))

/-- C6: when a product id has both a product document and at least one
snapshot (which the save flow guarantees and the unique index on
`product_id` keeps unique), `get_current_prices()` yields exactly one row
for it, whose price fields come from a snapshot of maximal `scraped_at`;
snapshots without a product document yield no row (see the
counterexample). -/
theorem C6_amended (products : List BProduct) (hist : List Snap) (pid : String)
    (hnd : (products.map BProduct.product_id).Nodup)
    (hp : ∃ p ∈ products, p.product_id = pid)
    (hs : ∃ t ∈ hist, t.product_id = pid) :
    ∃ s, latest_snapshot hist pid = some s
      ∧ s ∈ hist ∧ s.product_id = pid
      ∧ (∀ t ∈ hist, t.product_id = pid → t.scraped_at ≤ s.scraped_at)
      ∧ ((get_current_prices products hist none none none).filter
          (fun row => row.product_id = pid)).length = 1
      ∧ (∀ row ∈ get_current_prices products hist none none none,
          row.product_id = pid →
            row.price = s.price ∧ row.discount = s.discount
            ∧ row.last_price_update = s.scraped_at) := by
  obtain ⟨s, hls⟩ := latest_snapshot_isSome hist pid hs
  obtain ⟨hsm, hsp, hsmax⟩ := latest_snapshot_spec hist pid s hls
  have hgc : get_current_prices products hist none none none
      = products.filterMap
          (fun p => (latest_snapshot hist p.product_id).map (mk_price_row p)) := by
    unfold get_current_prices
    congr 1
    exact List.filter_eq_self.mpr (fun p _ => product_matches_none p)
  refine ⟨s, hls, hsm, hsp, hsmax, ?_, ?_⟩
  · rw [hgc]
    clear hgc hs
    induction products with
    | nil => simp at hp
    | cons p ps ih =>
      rw [List.map_cons, List.nodup_cons] at hnd
      by_cases hpp : p.product_id = pid
      · have hnone : ∀ q ∈ ps, ¬ q.product_id = pid := by
          intro q hq hqp
          exact hnd.1 (by rw [← hpp] at hqp; exact hqp ▸ List.mem_map_of_mem BProduct.product_id hq)
        rw [List.filterMap_cons, hpp, hls]
        simp only [Option.map_some']
        rw [List.filter_cons]
        rw [if_pos (by simpa using (show (mk_price_row p s).product_id = pid from hpp))]
        rw [List.length_cons, rows_no_pid hist pid ps hnone]
        rfl
      · rw [List.filterMap_cons]
        have hp' : ∃ q ∈ ps, q.product_id = pid := by
          obtain ⟨q, hq, hqp⟩ := hp
          rcases List.mem_cons.mp hq with rfl | hq'
          · exact absurd hqp hpp
          · exact ⟨q, hq', hqp⟩
        cases hl : latest_snapshot hist p.product_id with
        | none => exact ih hnd.2 hp'
        | some t =>
          simp only [Option.map_some']
          rw [List.filter_cons]
          rw [if_neg (by simpa using (show ¬ (mk_price_row p t).product_id = pid from hpp))]
          exact ih hnd.2 hp'
  · intro row hrow hrp
    rw [hgc] at hrow
    obtain ⟨q, hq, hqr⟩ := List.mem_filterMap.mp hrow
    cases hl : latest_snapshot hist q.product_id with
    | none => rw [hl] at hqr; simp at hqr
    | some t =>
      rw [hl] at hqr
      simp only [Option.map_some', Option.some.injEq] at hqr
      have hq' : q.product_id = pid := by
        rw [← hrp, ← hqr]
        rfl
      rw [hq'] at hl
      rw [hls] at hl
      have hts : s = t := by simpa using hl
      subst hts
      rw [← hqr]
      exact ⟨rfl, rfl, rfl⟩

/-- C6: a snapshot whose product id has no product document produces no row
at all, refuting "one row per distinct product_id that has at least one
snapshot" over arbitrary store states. -/
theorem C6_counterexample :
    get_current_prices [] [snapOld] none none none = []
    ∧ snapOld.product_id = "p1" := ⟨rfl, rfl⟩

/-- Witness for C6: one product with two snapshots yields exactly one row. -/
theorem C6_witness :
    ((get_current_prices [bProduct1] [snapOld, snapNewer] none none none).filter
      (fun row => row.product_id = "p1")).length = 1 := by
  obtain ⟨s, _, _, _, _, hcount, _⟩ :=
    C6_amended [bProduct1] [snapOld, snapNewer] "p1" (by simp)
      ⟨bProduct1, by simp, rfl⟩ ⟨snapOld, by simp, rfl⟩
  exact hcount

/-- A record whose `product_id` is falsy only bumps the error counter and
leaves the store untouched (enhanced_db_manager.py:189-192). -/
theorem process_product_invalid (parse : String → Option ℚ) (now : ℚ)
    (source : String) (st : SaveStats × MongoDB) (r : RawItem)
    (h : ¬ truthy (pyGet r.toRec "product_id") = true) :
    process_product parse now source st r
      = ({ st.1 with errors := st.1.errors + 1 }, st.2) := by
  obtain ⟨stats, db⟩ := st
  unfold process_product
  rw [if_pos h]

/-- The error counter threads additively through one loop iteration: the
iteration never reads `errors`, so a pre-incremented counter commutes with
processing. -/
theorem process_product_errors_bump (parse : String → Option ℚ) (now : ℚ)
    (source : String) (stats : SaveStats) (db : MongoDB) (r : RawItem) :
    process_product parse now source
        ({ stats with errors := stats.errors + 1 }, db) r
      = ({ (process_product parse now source (stats, db) r).1 with
            errors := (process_product parse now source (stats, db) r).1.errors + 1 },
         (process_product parse now source (stats, db) r).2) := by
  obtain ⟨n, u, npr, pcd, e⟩ := stats
  unfold process_product
  by_cases h : truthy (pyGet r.toRec "product_id")
  · rw [if_neg (not_not_intro h), if_neg (not_not_intro h)]
    dsimp only
    by_cases hup : (upsert_product now source (r.product_id.getD "")
        (r.price.getD 0) db.products).2
    · rcases hdet : detect_enhanced_price_change now
          (db.price_history ++ [⟨db.next_id, r.product_id.getD "",
            (r.scraped_at.bind parse).getD now, r.price, r.discount,
            some (assess_price_data_quality r.toRec)⟩])
          (r.product_id.getD "")
          ⟨db.next_id, r.product_id.getD "",
            (r.scraped_at.bind parse).getD now, r.price, r.discount,
            some (assess_price_data_quality r.toRec)⟩ with _ | ch <;>
        simp [hdet, hup]
    · rcases hdet : detect_enhanced_price_change now
          (db.price_history ++ [⟨db.next_id, r.product_id.getD "",
            (r.scraped_at.bind parse).getD now, r.price, r.discount,
            some (assess_price_data_quality r.toRec)⟩])
          (r.product_id.getD "")
          ⟨db.next_id, r.product_id.getD "",
            (r.scraped_at.bind parse).getD now, r.price, r.discount,
            some (assess_price_data_quality r.toRec)⟩ with _ | ch <;>
        simp [hdet, hup]
  · rw [if_pos h, if_pos h]

/-- The additive error threading extends to the whole fold. -/
theorem foldl_process_errors_bump (parse : String → Option ℚ) (now : ℚ)
    (source : String) (l : List RawItem) :
    ∀ (stats : SaveStats) (db : MongoDB),
      l.foldl (process_product parse now source)
          ({ stats with errors := stats.errors + 1 }, db)
        = ({ (l.foldl (process_product parse now source) (stats, db)).1 with
              errors := (l.foldl (process_product parse now source) (stats, db)).1.errors + 1 },
           (l.foldl (process_product parse now source) (stats, db)).2) := by
  induction l with
  | nil => intro stats db; rfl
  | cons r t ih =>
    intro stats db
    rw [List.foldl_cons, List.foldl_cons, process_product_errors_bump]
    exact ih (process_product parse now source (stats, db) r).1
      (process_product parse now source (stats, db) r).2

/-- C7: a record with a missing (falsy) `product_id` anywhere in the batch
increments `errors` by exactly one and changes nothing else: the final store
and all other counters equal those of the batch with that record removed, so
processing continues and the statistics object is still produced. -/
theorem C7_batch_error_isolation (parse : String → Option ℚ) (now : ℚ)
    (source : String) (db : MongoDB) (pre post : List RawItem) (rbad : RawItem)
    (hbad : ¬ truthy (pyGet rbad.toRec "product_id") = true) :
    save_products_enhanced parse now source db (pre ++ rbad :: post)
      = ({ (save_products_enhanced parse now source db (pre ++ post)).1 with
            errors := (save_products_enhanced parse now source db (pre ++ post)).1.errors + 1 },
         (save_products_enhanced parse now source db (pre ++ post)).2) := by
  unfold save_products_enhanced
  rw [List.foldl_append, List.foldl_cons,
    process_product_invalid parse now source _ rbad hbad,
    foldl_process_errors_bump, List.foldl_append]

/-- Witness for C7: in a batch of three where the middle record lacks
`product_id`, the error counter exceeds the clean batch's by one and the
resulting store is identical. -/
theorem C7_witness :
    (save_products_enhanced parseNone 0 "jumia.ma" emptyDB [rawP1, rawNoId, rawP2]).1.errors
      = (save_products_enhanced parseNone 0 "jumia.ma" emptyDB [rawP1, rawP2]).1.errors + 1
    ∧ (save_products_enhanced parseNone 0 "jumia.ma" emptyDB [rawP1, rawNoId, rawP2]).2
      = (save_products_enhanced parseNone 0 "jumia.ma" emptyDB [rawP1, rawP2]).2 := by
  have h := C7_batch_error_isolation parseNone 0 "jumia.ma" emptyDB
    [rawP1] [rawP2] rawNoId (by decide)
  simp only [List.cons_append, List.nil_append] at h
  rw [h]
  exact ⟨rfl, rfl⟩

/-- A raw item with a present product id exposes it to the dict view. -/
theorem toRec_product_id (r : RawItem) (pid : String)
    (h : r.product_id = some pid) :
    pyGet r.toRec "product_id" = Val.str pid := by
  unfold RawItem.toRec optEntry pyGet
  rw [h]
  simp [List.find?]

/-- The missing-id guard passes for a present, non-empty product id. -/
theorem guard_passes (r : RawItem) (pid : String)
    (h : r.product_id = some pid) (h2 : ¬ pid = "") :
    truthy (pyGet r.toRec "product_id") = true := by
  rw [toRec_product_id r pid h]
  simp [truthy, h2]

/-- Saving one record with a valid id and positive price into an empty store:
the product is inserted, one snapshot is stored, a `new_product` change is
detected, and the statistics update runs once. -/
theorem save_single_new (parse : String → Option ℚ) (now : ℚ) (source : String)
    (r : RawItem) (pid : String) (p : ℚ)
    (hpid : r.product_id = some pid) (hpid2 : ¬ pid = "")
    (hp : r.price = some p) (hpos : 0 < p) :
    save_products_enhanced parse now source emptyDB [r]
      = ({ new_products := 1, updated_products := 0, new_price_records := 1,
           price_changes_detected := 1, errors := 0 },
         { products := [apply_price_stats p (new_product_doc now source pid p)],
           price_history := [⟨0, pid, (r.scraped_at.bind parse).getD now, some p,
             r.discount, some (assess_price_data_quality r.toRec)⟩],
           price_changes := [⟨pid, "new_product", none, some p, none, none, none,
             r.discount, now, none, some (assess_price_data_quality r.toRec),
             none, none⟩],
           next_id := 1 }) := by
  have hgetD : r.product_id.getD "" = pid := by rw [hpid]; rfl
  have hguard := guard_passes r pid hpid hpid2
  have hpt : priceTruthy (some p) = true := by
    simp [priceTruthy, ne_of_gt hpos]
  have hple : ¬ p ≤ 0 := not_le.mpr hpos
  unfold save_products_enhanced
  rw [List.foldl_cons, List.foldl_nil]
  unfold process_product
  rw [if_neg (by simp [hguard])]
  dsimp only
  rw [hgetD, hp]
  simp [emptyDB, upsert_product, find_previous, detect_enhanced_price_change,
    update_product_price_stats, pickLater, hpt, hple, new_product_doc]

/-- Saving the same record again on a store that already holds one matching
product and one snapshot with the same price: the product is updated in
place, a second snapshot is stored, and no change is detected (equal prices
within the 0.01 epsilon), so the statistics update is skipped. -/
theorem save_single_second (parse : String → Option ℚ) (now : ℚ) (source : String)
    (r : RawItem) (pid : String) (p : ℚ) (prod1 : EProduct) (snap1 : Snap)
    (chs : List Change)
    (hpid : r.product_id = some pid) (hpid2 : ¬ pid = "")
    (hp : r.price = some p)
    (hprod : prod1.product_id = pid)
    (hsnap : snap1.product_id = pid) (hsp : snap1.price = some p)
    (hsid : snap1.sid = 0) :
    save_products_enhanced parse now source
        { products := [prod1], price_history := [snap1],
          price_changes := chs, next_id := 1 } [r]
      = ({ new_products := 0, updated_products := 1, new_price_records := 1,
           price_changes_detected := 0, errors := 0 },
         { products := [apply_product_set now source prod1],
           price_history := [snap1, ⟨1, pid, (r.scraped_at.bind parse).getD now,
             some p, r.discount, some (assess_price_data_quality r.toRec)⟩],
           price_changes := chs, next_id := 2 }) := by
  have hgetD : r.product_id.getD "" = pid := by rw [hpid]; rfl
  have hguard := guard_passes r pid hpid hpid2
  have h001 : |p - p| < (1 : ℚ)/100 := by
    rw [sub_self, abs_zero]
    norm_num
  unfold save_products_enhanced
  rw [List.foldl_cons, List.foldl_nil]
  unfold process_product
  rw [if_neg (by simp [hguard])]
  dsimp only
  rw [hgetD, hp]
  simp [upsert_product, find_previous, detect_enhanced_price_change,
    pickLater, hprod, hsnap, hsid, hsp, h001]

/-- C2: saving the same record (valid id, positive price) twice from an
empty store increments `new_products` on the first save and
`updated_products` (not `new_products`) on the second, and appends one
snapshot per save; but `price_history_count` reaches 1 on the first save and
*stays* 1 after the second, because the statistics update only runs when a
price change is detected and the identical second save detects none. -/
theorem C2_amended (parse : String → Option ℚ) (now1 now2 : ℚ) (source : String)
    (r : RawItem) (pid : String) (p : ℚ)
    (hpid : r.product_id = some pid) (hpid2 : ¬ pid = "")
    (hp : r.price = some p) (hpos : 0 < p) :
    (save_products_enhanced parse now1 source emptyDB [r]).1.new_products = 1
    ∧ (save_products_enhanced parse now1 source emptyDB [r]).1.updated_products = 0
    ∧ (save_products_enhanced parse now1 source emptyDB [r]).1.new_price_records = 1
    ∧ (save_products_enhanced parse now2 source
        (save_products_enhanced parse now1 source emptyDB [r]).2 [r]).1.updated_products = 1
    ∧ (save_products_enhanced parse now2 source
        (save_products_enhanced parse now1 source emptyDB [r]).2 [r]).1.new_products = 0
    ∧ (save_products_enhanced parse now2 source
        (save_products_enhanced parse now1 source emptyDB [r]).2 [r]).1.new_price_records = 1
    ∧ (save_products_enhanced parse now1 source emptyDB [r]).2.products.map
        EProduct.price_history_count = [some 1]
    ∧ (save_products_enhanced parse now2 source
        (save_products_enhanced parse now1 source emptyDB [r]).2 [r]).2.products.map
        EProduct.price_history_count = [some 1]
    ∧ (save_products_enhanced parse now1 source emptyDB [r]).2.price_history.length = 1
    ∧ (save_products_enhanced parse now2 source
        (save_products_enhanced parse now1 source emptyDB [r]).2 [r]).2.price_history.length = 2 := by
  rw [save_single_new parse now1 source r pid p hpid hpid2 hp hpos]
  dsimp only
  rw [save_single_second parse now2 source r pid p
    (apply_price_stats p (new_product_doc now1 source pid p))
    ⟨0, pid, (r.scraped_at.bind parse).getD now1, some p, r.discount,
      some (assess_price_data_quality r.toRec)⟩
    [⟨pid, "new_product", none, some p, none, none, none, r.discount, now1,
      none, some (assess_price_data_quality r.toRec), none, none⟩]
    hpid hpid2 hp rfl rfl rfl rfl]
  refine ⟨rfl, rfl, rfl, rfl, rfl, rfl, ?_, ?_, rfl, rfl⟩
  · simp [apply_price_stats, new_product_doc]
  · simp [apply_product_set, apply_price_stats, new_product_doc]

/-- C2: after two identical saves of a record with price 100 from an empty
store, the single product's `price_history_count` is 1, not 2 — it did not
grow on the second save. -/
theorem C2_counterexample :
    (save_products_enhanced parseNone 1 "jumia.ma"
        (save_products_enhanced parseNone 0 "jumia.ma" emptyDB [rawP1]).2
        [rawP1]).1.updated_products = 1
    ∧ (save_products_enhanced parseNone 1 "jumia.ma"
        (save_products_enhanced parseNone 0 "jumia.ma" emptyDB [rawP1]).2
        [rawP1]).2.products.map EProduct.price_history_count = [some 1]
    ∧ [some (1 : ℕ)] ≠ [some 2] := by
  rw [save_single_new parseNone 0 "jumia.ma" rawP1 "p1" 100 rfl (by decide) rfl
    (by norm_num)]
  dsimp only
  rw [save_single_second parseNone 1 "jumia.ma" rawP1 "p1" 100
    (apply_price_stats 100 (new_product_doc 0 "jumia.ma" "p1" 100))
    ⟨0, "p1", (rawP1.scraped_at.bind parseNone).getD 0, some 100, rawP1.discount,
      some (assess_price_data_quality rawP1.toRec)⟩
    [⟨"p1", "new_product", none, some 100, none, none, none, rawP1.discount, 0,
      none, some (assess_price_data_quality rawP1.toRec), none, none⟩]
    rfl (by decide) rfl rfl rfl rfl rfl]
  refine ⟨rfl, ?_, by decide⟩
  simp [apply_product_set, apply_price_stats, new_product_doc]

/-- Witness for C2 at the concrete record (id p1, price 100). -/
theorem C2_witness :
    (save_products_enhanced parseNone 0 "jumia.ma" emptyDB [rawP1]).1.new_products = 1
    ∧ (save_products_enhanced parseNone 1 "jumia.ma"
        (save_products_enhanced parseNone 0 "jumia.ma" emptyDB [rawP1]).2
        [rawP1]).1.new_products = 0 := by
  obtain ⟨h1, _, _, _, h5, _⟩ :=
    C2_amended parseNone 0 1 "jumia.ma" rawP1 "p1" 100 rfl (by decide) rfl
      (by norm_num)
  exact ⟨h1, h5⟩

/-- C3: in the enhanced manager, identity is `product_id` alone — re-saving
the same `product_id` under a different `source` updates the single existing
record (overwriting its `source` with the new one) instead of creating a
second record; the index and the upsert filter use only `product_id`. -/
theorem C3_amended (parse : String → Option ℚ) (now1 now2 : ℚ)
    (source1 source2 : String) (r : RawItem) (pid : String) (p : ℚ)
    (hpid : r.product_id = some pid) (hpid2 : ¬ pid = "")
    (hp : r.price = some p) (hpos : 0 < p) :
    (save_products_enhanced parse now2 source2
        (save_products_enhanced parse now1 source1 emptyDB [r]).2 [r]).1.new_products = 0
    ∧ (save_products_enhanced parse now2 source2
        (save_products_enhanced parse now1 source1 emptyDB [r]).2 [r]).1.updated_products = 1
    ∧ (save_products_enhanced parse now2 source2
        (save_products_enhanced parse now1 source1 emptyDB [r]).2 [r]).2.products.map
        EProduct.product_id = [pid]
    ∧ (save_products_enhanced parse now2 source2
        (save_products_enhanced parse now1 source1 emptyDB [r]).2 [r]).2.products.map
        EProduct.source = [source2] := by
  rw [save_single_new parse now1 source1 r pid p hpid hpid2 hp hpos]
  dsimp only
  rw [save_single_second parse now2 source2 r pid p
    (apply_price_stats p (new_product_doc now1 source1 pid p))
    ⟨0, pid, (r.scraped_at.bind parse).getD now1, some p, r.discount,
      some (assess_price_data_quality r.toRec)⟩
    [⟨pid, "new_product", none, some p, none, none, none, r.discount, now1,
      none, some (assess_price_data_quality r.toRec), none, none⟩]
    hpid hpid2 hp rfl rfl rfl rfl]
  refine ⟨rfl, rfl, ?_, ?_⟩
  · simp [apply_product_set, apply_price_stats, new_product_doc]
  · simp [apply_product_set, apply_price_stats, new_product_doc]

/-- C3: saving product id p1 from source jumia.ma and then from source
marjanemall.ma leaves one single product record, counted as an update — not
two distinct records. -/
theorem C3_counterexample :
    (save_products_enhanced parseNone 1 "marjanemall.ma"
        (save_products_enhanced parseNone 0 "jumia.ma" emptyDB [rawP1]).2
        [rawP1]).2.products.length = 1
    ∧ (save_products_enhanced parseNone 1 "marjanemall.ma"
        (save_products_enhanced parseNone 0 "jumia.ma" emptyDB [rawP1]).2
        [rawP1]).1.new_products = 0
    ∧ (save_products_enhanced parseNone 1 "marjanemall.ma"
        (save_products_enhanced parseNone 0 "jumia.ma" emptyDB [rawP1]).2
        [rawP1]).2.products.map EProduct.source = ["marjanemall.ma"] := by
  rw [save_single_new parseNone 0 "jumia.ma" rawP1 "p1" 100 rfl (by decide) rfl
    (by norm_num)]
  dsimp only
  rw [save_single_second parseNone 1 "marjanemall.ma" rawP1 "p1" 100
    (apply_price_stats 100 (new_product_doc 0 "jumia.ma" "p1" 100))
    ⟨0, "p1", (rawP1.scraped_at.bind parseNone).getD 0, some 100, rawP1.discount,
      some (assess_price_data_quality rawP1.toRec)⟩
    [⟨"p1", "new_product", none, some 100, none, none, none, rawP1.discount, 0,
      none, some (assess_price_data_quality rawP1.toRec), none, none⟩]
    rfl (by decide) rfl rfl rfl rfl rfl]
  refine ⟨rfl, rfl, ?_⟩
  simp [apply_product_set, apply_price_stats, new_product_doc]

/-- Witness for C3 at the concrete record (id p2, price 50) and two distinct
sources. -/
theorem C3_witness :
    (save_products_enhanced parseNone 1 "s2"
        (save_products_enhanced parseNone 0 "s1" emptyDB [rawP2]).2
        [rawP2]).2.products.map EProduct.source = ["s2"] := by
  obtain ⟨_, _, _, h⟩ :=
    C3_amended parseNone 0 1 "s1" "s2" rawP2 "p2" 50 rfl (by decide) rfl
      (by norm_num)
  exact h

/-- The product-document keys whose values survive re-normalization (all of
them except `display_name` and `quality_score`). -/
def product_doc_preserved_keys : List String :=
  ["product_id", "name", "brand", "url", "image_url", "image_alt", "category",
   "categories", "category_key", "tags", "brand_key", "seller_id", "seller",
   "is_official_store", "official_store_name", "is_sponsored", "is_buyable",
   "is_second_chance", "express_delivery", "campaign_name",
   "campaign_identifier", "last_scraped_at", "last_updated_at", "source",
   "is_active"]

/-- The snapshot keys whose values survive re-normalization (all of them
except `scraped_at` and `data_quality`). -/
def snapshot_preserved_keys : List String :=
  ["product_id", "price", "price_text", "raw_price", "old_price",
   "old_price_text", "discount", "discount_text", "price_euro",
   "old_price_euro", "discount_euro", "rating", "review_count",
   "is_available", "scrape_session_id"]

/-- Normalizing the `categories` value is idempotent. -/
theorem categories_norm_idem (v : Val) :
    (match (match v with
            | Val.strList l => Val.str (jsonDumps l)
            | w => w) with
     | Val.strList l => Val.str (jsonDumps l)
     | w => w)
    = (match v with
       | Val.strList l => Val.str (jsonDumps l)
       | w => w) := by
  cases v <;> rfl

/-- C8: re-normalizing a normalizer's own output (same clock, parser and
source) keeps the key set and preserves the value of every field except the
product document's `display_name` (whose camel-case input key is gone on the
second pass) and `quality_score`, and the snapshot's `scraped_at` (a
datetime no longer parses as an ISO string) and `data_quality` (the
`category` input key is gone); normalization is not idempotent on those four
fields (see the counterexample). -/
theorem C8_amended (parse : String → Option ℚ) (now : ℚ) (source : String)
    (r : Rec) :
    ((prepare_enhanced_product_document now
        (prepare_enhanced_product_document now r source) source).map Prod.fst
      = (prepare_enhanced_product_document now r source).map Prod.fst)
    ∧ (∀ k ∈ product_doc_preserved_keys,
        pyGet (prepare_enhanced_product_document now
          (prepare_enhanced_product_document now r source) source) k
        = pyGet (prepare_enhanced_product_document now r source) k)
    ∧ ((prepare_enhanced_price_history parse now
        (prepare_enhanced_price_history parse now r)).map Prod.fst
      = (prepare_enhanced_price_history parse now r).map Prod.fst)
    ∧ (∀ k ∈ snapshot_preserved_keys,
        pyGet (prepare_enhanced_price_history parse now
          (prepare_enhanced_price_history parse now r)) k
        = pyGet (prepare_enhanced_price_history parse now r) k) := by
  refine ⟨rfl, ?_, rfl, ?_⟩
  · intro k hk
    fin_cases hk <;>
      first
        | rfl
        | exact categories_norm_idem (pyGet r "categories")
  · intro k hk
    fin_cases hk <;> rfl

/-- C8: re-normalization is not idempotent — for the record with only an id
and a price, `quality_score` drops from 1/9 to 0 on the second pass (the
product document has no `price` key), and for a record with price text and
category, `data_quality` drops from excellent to good (the snapshot document
has no `category` key). -/
theorem C8_counterexample :
    pyGet (prepare_enhanced_product_document 0 c8raw "jumia.ma") "quality_score"
      = Val.num (1/9)
    ∧ pyGet (prepare_enhanced_product_document 0
        (prepare_enhanced_product_document 0 c8raw "jumia.ma") "jumia.ma")
        "quality_score" = Val.num 0
    ∧ Val.num (1/9) ≠ Val.num 0
    ∧ pyGet (prepare_enhanced_price_history parseNone 0 c8rawSnap) "data_quality"
      = Val.str "excellent"
    ∧ pyGet (prepare_enhanced_price_history parseNone 0
        (prepare_enhanced_price_history parseNone 0 c8rawSnap)) "data_quality"
      = Val.str "good"
    ∧ Val.str "excellent" ≠ Val.str "good" := by
  refine ⟨?_, ?_, ?_, ?_, ?_, by decide⟩
  · simp +decide only [prepare_enhanced_product_document,
      calculate_product_quality_score, essential_fields, bonus_fields, c8raw,
      pyGet, truthy, List.find?, List.foldl, pyGetD, pyOr]
    norm_num
  · simp +decide only [prepare_enhanced_product_document,
      calculate_product_quality_score, essential_fields, bonus_fields, c8raw,
      pyGet, truthy, List.find?, List.foldl, pyGetD, pyOr]
    norm_num
  · simp only [ne_eq, Val.num.injEq]
    norm_num
  · simp +decide only [prepare_enhanced_price_history,
      assess_price_data_quality, c8rawSnap, pyGet, truthy, List.find?]
  · simp +decide only [prepare_enhanced_price_history,
      assess_price_data_quality, c8rawSnap, pyGet, truthy, List.find?]

/-- Witness for C8 at preserved keys of the concrete minimal record. -/
theorem C8_witness :
    ("name" ∈ product_doc_preserved_keys)
    ∧ ("price" ∈ snapshot_preserved_keys)
    ∧ pyGet (prepare_enhanced_product_document 0
        (prepare_enhanced_product_document 0 c8raw "jumia.ma") "jumia.ma") "name"
      = pyGet (prepare_enhanced_product_document 0 c8raw "jumia.ma") "name"
    ∧ pyGet (prepare_enhanced_price_history parseNone 0
        (prepare_enhanced_price_history parseNone 0 c8raw)) "price"
      = pyGet (prepare_enhanced_price_history parseNone 0 c8raw) "price" :=
  ⟨by decide, by decide,
   (C8_amended parseNone 0 "jumia.ma" c8raw).2.1 "name" (by decide),
   (C8_amended parseNone 0 "jumia.ma" c8raw).2.2.2 "price" (by decide)⟩

/-- C9: `save_product` is atomic per record — on an idle connection, if any
of its four statement sites raises, it returns `False` and both tables (the
whole committed and pending state) are exactly as before the call; if none
raises, it returns `True` and the product upsert and the price-history
insert are committed together. -/
theorem C9_save_product_atomic (fail : ℕ → Bool) (now : ℚ) (c : Conn)
    (d : SqliteProductData) (hidle : c.pending = c.committed) :
    ((sqlite_save_product fail now c d).1 = false
      ↔ (fail 0 || fail 1 || fail 2 || fail 3) = true)
    ∧ ((sqlite_save_product fail now c d).1 = false →
        (sqlite_save_product fail now c d).2.committed = c.committed
        ∧ (sqlite_save_product fail now c d).2.pending = c.committed)
    ∧ ((sqlite_save_product fail now c d).1 = true →
        (sqlite_save_product fail now c d).2.committed
          = { products :=
                if c.committed.products.any
                    (fun row => row.id = d.product_id && row.source = d.source)
                then sqlite_update_products now d c.committed.products
                else c.committed.products ++ [sqlite_insert_row now d],
              price_history := c.committed.price_history
                ++ [sqlite_history_row now d c.committed.next_hist_id],
              next_hist_id := c.committed.next_hist_id + 1 }) := by
  unfold sqlite_save_product
  by_cases h0 : fail 0 <;> by_cases h1 : fail 1 <;> by_cases h2 : fail 2 <;>
    by_cases h3 : fail 3 <;>
      simp [h0, h1, h2, h3, Conn.rollback, Conn.commit, hidle, apply_ite]

/-- Witness for C9: with no failing statement, saving into an idle empty
connection commits the inserted product row and its history row together. -/
theorem C9_witness :
    (sqlite_save_product (fun _ => false) 0 connEmpty sqliteSample).1 = true
    ∧ (sqlite_save_product (fun _ => false) 0 connEmpty sqliteSample).2.committed
      = { products :=
            if connEmpty.committed.products.any
                (fun row => row.id = sqliteSample.product_id
                  && row.source = sqliteSample.source)
            then sqlite_update_products 0 sqliteSample connEmpty.committed.products
            else connEmpty.committed.products ++ [sqlite_insert_row 0 sqliteSample],
          price_history := connEmpty.committed.price_history
            ++ [sqlite_history_row 0 sqliteSample connEmpty.committed.next_hist_id],
          next_hist_id := connEmpty.committed.next_hist_id + 1 } := by
  have hres : (sqlite_save_product (fun _ => false) 0 connEmpty sqliteSample).1 = true := by
    simp [sqlite_save_product, Conn.commit]
  exact ⟨hres,
    (C9_save_product_atomic (fun _ => false) 0 connEmpty sqliteSample rfl).2.2 hres⟩

end MSDIA
